import Mathlib

/-
Verification development for the CreateSIT repository (src/CreateSIT.py and
src/jiraSIT.py).  Both scripts contain one class, ReportGenerator, whose
method _fetch_SAFe iterates over the parent issues returned by a JQL query
and, for each parent, resolves a field template (optionally deriving the
child summary from the parent summary), checks whether a linked issue with
the same summary already exists, creates the child issue, and links it to
the parent (typed issue link for Epics, Epic-Link field update for Stories).

The embedding below models the per-parent loop of _fetch_SAFe.  The Jira
client (self.jira) is an external collaborator; it is modelled as a record
of functions returning Except values (ok result or raised-exception
message).  Side effects that the claims talk about (creation calls, link
calls, field updates, recorded link failures, per-parent outcomes) are
collected in an explicit Trace.  Logging that carries no decision content
is not modelled, except that the "logging.error + return" on a creation
failure is recorded as a FailedCreate outcome and the "logging.error" on a
link failure is recorded in linkFailures, following the outcome vocabulary
of the specification.
-/

namespace CreateSIT

/-! ## Summary-suffix derivation (CreateSIT.py lines 52-57, jiraSIT.py lines 45-51)

The scripts run two Python substitutions over the parent summary:
  re.sub(r"[\(\[].*?[\)\]]", "", s)   and then   re.sub("ST: SIT -", "", s).
-/

/-- Model of one pass of Python `re.sub` with pattern `[\(\[].*?[\)\]]` and
empty replacement.  The Python regex engine scans left to right; at an
opening `(` or `[` the lazy `.*?` makes the match end at the first
following `)` or `]`, and `.` cannot cross a newline, so the match at that
opener succeeds exactly when such a closer occurs before any newline; on
success scanning resumes after the closer, on failure the engine retries
from the next position.  The accumulator holds, reversed, the opener and
the characters examined since it; that buffer can never contain a closer
(a closer would have ended the match), so when a newline or the end of the
input defeats the pending opener it defeats every opener buffered after it
as well, and the buffered characters are emitted verbatim. -/
def stripBracketsAux : Option (List Char) → List Char → List Char
  | none, [] => []
  | none, c :: rest =>
    if c = '(' ∨ c = '[' then stripBracketsAux (some [c]) rest
    else c :: stripBracketsAux none rest
  | some buf, [] => buf.reverse
  | some buf, c :: rest =>
    if c = ')' ∨ c = ']' then stripBracketsAux none rest
    else if c = '\n' then buf.reverse ++ '\n' :: stripBracketsAux none rest
    else stripBracketsAux (some (c :: buf)) rest

/-- The first substitution: remove every shortest-match `(...)`/`[...]`
annotation from the summary. -/
def stripBrackets (s : String) : String := ⟨stripBracketsAux none s.data⟩

/-- Model of `re.sub("ST: SIT -", "", s)`: the pattern has no
metacharacters, so this removes every non-overlapping occurrence of the
literal marker, scanning left to right and resuming after each removed
occurrence. -/
def removeMarkerAux : List Char → List Char
  | 'S' :: 'T' :: ':' :: ' ' :: 'S' :: 'I' :: 'T' :: ' ' :: '-' :: rest =>
    removeMarkerAux rest
  | c :: rest => c :: removeMarkerAux rest
  | [] => []

/-- The second substitution: remove the literal marker `ST: SIT -`. -/
def removeMarker (s : String) : String := ⟨removeMarkerAux s.data⟩

/-- The derived suffix: the parent summary after the two substitutions,
in the order the scripts apply them. -/
def deriveSuffix (s : String) : String := removeMarker (stripBrackets s)

/-! ## Data model -/

/-- One entry of a parent issue's `issuelinks` list.  A link dictionary may
carry an `inwardIssue` entry, an `outwardIssue` entry, both, or neither;
the scripts only read the linked issue's summary
(`link[...]['fields']['summary']`), so each entry is modelled by the
summary it carries. -/
structure Link where
  inwardIssue : Option String
  outwardIssue : Option String
deriving DecidableEq

/-- The linked-issue summary a link carries, as the scripts extract it:
the `inwardIssue` summary when present, otherwise the `outwardIssue`
summary, otherwise nothing. -/
def linkedSummary (link : Link) : Option String :=
  match link.inwardIssue with
  | some s => some s
  | none => link.outwardIssue

/-- A parent issue as consumed by the loop: `value['key']`,
`value['fields']['summary']`, `value['fields'].get('issuelinks', [])`. -/
structure ParentIssue where
  key : String
  summary : String
  issuelinks : List Link
deriving DecidableEq

/-- The `create_fields` template.  The scripts read and write
`create_fields['summary']`, read `create_fields['issuetype']['name']`, and
write `create_fields['customfield_11502']`; every other field is passed
through untouched to the creation call and is modelled by the opaque
`extra` association list. -/
structure CreateFields where
  summary : String
  issuetypeName : String
  customfield_11502 : Option String
  extra : List (String × String)
deriving DecidableEq

/-- The payload of `create_issue_link`:
`{"type": {"id": ...}, "inwardIssue": {"key": ...}, "outwardIssue": {"key": ...}}`. -/
structure LinkPayload where
  typeId : String
  inwardKey : String
  outwardKey : String
deriving DecidableEq

/-- Per-parent outcome vocabulary of the specification (section 3,
SyncOutcome). -/
inductive SyncOutcome where
  | Created (key : String)
  | SkippedDuplicate
  | FailedCreate (reason : String)
deriving DecidableEq

/-- The observable effects of a run: outcomes in parent order, every
`issue_create` call with the exact fields passed, every
`create_issue_link` call, every `issue_update` call (issue key, field
name, value), and every caught-and-logged link-level failure. -/
structure Trace where
  outcomes : List SyncOutcome
  createCalls : List CreateFields
  linkCalls : List LinkPayload
  updateCalls : List (String × String × String)
  linkFailures : List String
deriving DecidableEq

/-- The empty trace at the start of a run. -/
def Trace.empty : Trace := ⟨[], [], [], [], []⟩

/-- The Jira client collaborator: `issue_create` returns the created
issue's key or raises, `create_issue_link` and `issue_update`
(issue key, field name, value) succeed or raise. -/
structure Jira where
  issue_create : CreateFields → Except String String
  create_issue_link : LinkPayload → Except String Unit
  issue_update : String → String → String → Except String Unit

/-! ## Duplicate detection -/

/-- The inline duplicate-check loop of CreateSIT.py lines 63-82: extract
the linked summary (inward preferred), `continue` when the link has
neither entry, and stop with true at the first link whose summary equals
`create_fields['summary']`. -/
def issueExistsScan : List Link → String → Bool
  | [], _ => false
  | link :: rest, cand =>
    match link.inwardIssue with
    | some s => if s = cand then true else issueExistsScan rest cand
    | none =>
      match link.outwardIssue with
      | some s => if s = cand then true else issueExistsScan rest cand
      | none => issueExistsScan rest cand

/-- ReportGenerator._issue_already_exists of jiraSIT.py lines 72-84:
`linked_summary` is initialised to the empty string and left empty when a
link has neither an `inwardIssue` nor an `outwardIssue` entry, and the
comparison `linked_summary == summary` still runs for such a link. -/
def issue_already_exists : List Link → String → Bool
  | [], _ => false
  | link :: rest, summary =>
    let linked_summary :=
      match link.inwardIssue with
      | some s => s
      | none =>
        match link.outwardIssue with
        | some s => s
        | none => ""
    if linked_summary = summary then true else issue_already_exists rest summary

/-! ## Template resolution (CreateSIT.py lines 52-57, jiraSIT.py lines 45-51) -/

/-- The per-iteration mutation of `create_fields` when `suffix` is set:
`create_fields['summary'] = prefix + suffix_str`, and for Epics also
`create_fields['customfield_11502'] = prefix + suffix_str`; with `suffix`
unset the template is left untouched.  `prefixStr` is the value
`prefix = create_fields['summary']` captured before the loop. -/
def resolveFields (create_fields : CreateFields) (prefixStr : String)
    (parentSummary : String) (suffix : Bool) : CreateFields :=
  if suffix then
    let suffix_str := deriveSuffix parentSummary
    { create_fields with
      summary := prefixStr ++ suffix_str,
      customfield_11502 :=
        if create_fields.issuetypeName = "Epic" then some (prefixStr ++ suffix_str)
        else create_fields.customfield_11502 }
  else create_fields

/-! ## Link strategy (CreateSIT.py lines 93-116, jiraSIT.py lines 86-120) -/

/-- ReportGenerator._link_epic_to_safe_feature (jiraSIT.py lines 98-109;
CreateSIT.py lines 93-103 inline the same operation): issue a
`create_issue_link` call with type id "10502", the new Epic as the inward
party and the parent SAFe Feature as the outward party; a raised exception
is caught and logged. -/
def link_epic_to_safe_feature (jira : Jira) (safe_feature_key epic_key : String)
    (tr : Trace) : Trace :=
  let payload : LinkPayload := ⟨"10502", epic_key, safe_feature_key⟩
  match jira.create_issue_link payload with
  | Except.ok _ => { tr with linkCalls := tr.linkCalls ++ [payload] }
  | Except.error e =>
    { tr with linkCalls := tr.linkCalls ++ [payload],
              linkFailures := tr.linkFailures ++ [e] }

/-- ReportGenerator._link_story_to_epic (jiraSIT.py lines 111-120;
CreateSIT.py lines 106-116 inline the same operation): issue an
`issue_update` call on the created Story's key setting
`customfield_11501` to the parent Epic's key; a raised exception is caught
and logged. -/
def link_story_to_epic (jira : Jira) (epic_key story_key : String)
    (tr : Trace) : Trace :=
  match jira.issue_update story_key "customfield_11501" epic_key with
  | Except.ok _ =>
    { tr with updateCalls := tr.updateCalls ++ [(story_key, "customfield_11501", epic_key)] }
  | Except.error e =>
    { tr with updateCalls := tr.updateCalls ++ [(story_key, "customfield_11501", epic_key)],
              linkFailures := tr.linkFailures ++ [e] }

/-- ReportGenerator._link_issue of jiraSIT.py lines 86-96; CreateSIT.py
lines 93-116 dispatch identically on `create_fields['issuetype']['name']`
with an if/elif chain, so any other issue type triggers no link
operation. -/
def link_issue (jira : Jira) (parent_key created_key : String)
    (create_fields : CreateFields) (tr : Trace) : Trace :=
  if create_fields.issuetypeName = "Epic" then
    link_epic_to_safe_feature jira parent_key created_key tr
  else if create_fields.issuetypeName = "Story" then
    link_story_to_epic jira parent_key created_key tr
  else tr

/-! ## The synchronization loop of _fetch_SAFe

Both scripts capture `prefix = create_fields['summary']` once before the
loop and then, per fetched parent issue: resolve the template, run the
duplicate check against the resolved summary, `continue` on a duplicate,
call `issue_create`, `return` (abandoning the whole remaining batch) when
creation raises, and otherwise run the link strategy and move to the next
parent.  The mutated `create_fields` dictionary is carried into the next
iteration, exactly as the in-place Python mutation does.
-/

/-- The per-parent loop of CreateSIT.py lines 46-116, with its inline
duplicate check `issueExistsScan`. -/
def fetchLoopCreate (jira : Jira) (prefixStr : String) (suffix : Bool) :
    List ParentIssue → CreateFields → Trace → Trace
  | [], _, tr => tr
  | v :: rest, create_fields, tr =>
    let cf := resolveFields create_fields prefixStr v.summary suffix
    if issueExistsScan v.issuelinks cf.summary then
      fetchLoopCreate jira prefixStr suffix rest cf
        { tr with outcomes := tr.outcomes ++ [SyncOutcome.SkippedDuplicate] }
    else
      match jira.issue_create cf with
      | Except.error e =>
        { tr with createCalls := tr.createCalls ++ [cf],
                  outcomes := tr.outcomes ++ [SyncOutcome.FailedCreate e] }
      | Except.ok created_key =>
        fetchLoopCreate jira prefixStr suffix rest cf
          (link_issue jira v.key created_key cf
            { tr with createCalls := tr.createCalls ++ [cf],
                      outcomes := tr.outcomes ++ [SyncOutcome.Created created_key] })

/-- The per-parent loop of jiraSIT.py lines 41-70, which delegates the
duplicate check to `_issue_already_exists` and the linking to
`_link_issue`. -/
def fetchLoopJira (jira : Jira) (prefixStr : String) (suffix : Bool) :
    List ParentIssue → CreateFields → Trace → Trace
  | [], _, tr => tr
  | v :: rest, create_fields, tr =>
    let cf := resolveFields create_fields prefixStr v.summary suffix
    if issue_already_exists v.issuelinks cf.summary then
      fetchLoopJira jira prefixStr suffix rest cf
        { tr with outcomes := tr.outcomes ++ [SyncOutcome.SkippedDuplicate] }
    else
      match jira.issue_create cf with
      | Except.error e =>
        { tr with createCalls := tr.createCalls ++ [cf],
                  outcomes := tr.outcomes ++ [SyncOutcome.FailedCreate e] }
      | Except.ok created_key =>
        fetchLoopJira jira prefixStr suffix rest cf
          (link_issue jira v.key created_key cf
            { tr with createCalls := tr.createCalls ++ [cf],
                      outcomes := tr.outcomes ++ [SyncOutcome.Created created_key] })

/-- _fetch_SAFe of CreateSIT.py, applied to the issues the query returned:
captures `prefix = create_fields['summary']` once, then runs the loop on
the fetched parents starting from an empty trace. -/
def fetch_SAFe_create (jira : Jira) (values : List ParentIssue)
    (create_fields : CreateFields) (suffix : Bool) : Trace :=
  fetchLoopCreate jira create_fields.summary suffix values create_fields Trace.empty

/-- _fetch_SAFe of jiraSIT.py, applied to the issues the query returned. -/
def fetch_SAFe_jira (jira : Jira) (values : List ParentIssue)
    (create_fields : CreateFields) (suffix : Bool) : Trace :=
  fetchLoopJira jira create_fields.summary suffix values create_fields Trace.empty

/-! ## Duplicate-detector lemmas -/

/-- One step of the CreateSIT.py inline scan: a link contributes exactly
when the summary it carries equals the candidate. -/
theorem issueExistsScan_cons (link : Link) (rest : List Link) (cand : String) :
    issueExistsScan (link :: rest) cand
      = ((linkedSummary link == some cand) || issueExistsScan rest cand) := by
  cases hin : link.inwardIssue with
  | some s =>
    by_cases hs : s = cand <;> simp [issueExistsScan, linkedSummary, hin, hs]
  | none =>
    cases hout : link.outwardIssue with
    | some s =>
      by_cases hs : s = cand <;> simp [issueExistsScan, linkedSummary, hin, hout, hs]
    | none => simp [issueExistsScan, linkedSummary, hin, hout]

/-- One step of jiraSIT.py's _issue_already_exists: a link with neither
entry is compared as the empty string. -/
theorem issue_already_exists_cons (link : Link) (rest : List Link) (cand : String) :
    issue_already_exists (link :: rest) cand
      = (((linkedSummary link).getD "" == cand) || issue_already_exists rest cand) := by
  cases hin : link.inwardIssue with
  | some s =>
    by_cases hs : s = cand <;> simp [issue_already_exists, linkedSummary, hin, hs]
  | none =>
    cases hout : link.outwardIssue with
    | some s =>
      by_cases hs : s = cand <;>
        simp [issue_already_exists, linkedSummary, hin, hout, hs]
    | none =>
      by_cases hs : "" = cand <;>
        simp [issue_already_exists, linkedSummary, hin, hout, hs]

/-- The CreateSIT.py scan is true exactly when some link carries a summary
equal to the candidate. -/
theorem issueExistsScan_iff (links : List Link) (cand : String) :
    issueExistsScan links cand = true ↔ ∃ l ∈ links, linkedSummary l = some cand := by
  induction links with
  | nil => simp [issueExistsScan]
  | cons link rest ih => simp [issueExistsScan_cons, ih]

/-- jiraSIT.py's _issue_already_exists is true exactly when some link's
carried summary, defaulted to the empty string, equals the candidate. -/
theorem issue_already_exists_iff (links : List Link) (cand : String) :
    issue_already_exists links cand = true
      ↔ ∃ l ∈ links, (linkedSummary l).getD "" = cand := by
  induction links with
  | nil => simp [issue_already_exists]
  | cons link rest ih => simp [issue_already_exists_cons, ih]

/-- Whenever the CreateSIT.py scan finds a duplicate, so does
jiraSIT.py's _issue_already_exists. -/
theorem issue_already_exists_of_scan (links : List Link) (cand : String)
    (h : issueExistsScan links cand = true) :
    issue_already_exists links cand = true := by
  rcases (issueExistsScan_iff links cand).mp h with ⟨l, hl, hs⟩
  exact (issue_already_exists_iff links cand).mpr ⟨l, hl, by simp [hs]⟩

/-- Whenever jiraSIT.py's detector is false, so is the CreateSIT.py scan. -/
theorem scan_false_of_jira_false (links : List Link) (cand : String)
    (h : issue_already_exists links cand = false) :
    issueExistsScan links cand = false := by
  cases hs : issueExistsScan links cand with
  | false => rfl
  | true => rw [issue_already_exists_of_scan links cand hs] at h; cases h

/-! ## Link-strategy lemmas -/

/-- The Epic link helper issues exactly one `create_issue_link` call with
the fixed type id "10502", the new Epic inward and the parent outward,
whether or not the call succeeds, and issues no field update. -/
theorem link_epic_calls (jira : Jira) (safe_feature_key epic_key : String) (tr : Trace) :
    (link_epic_to_safe_feature jira safe_feature_key epic_key tr).linkCalls
        = tr.linkCalls ++ [⟨"10502", epic_key, safe_feature_key⟩]
      ∧ (link_epic_to_safe_feature jira safe_feature_key epic_key tr).updateCalls
        = tr.updateCalls := by
  cases h : jira.create_issue_link ⟨"10502", epic_key, safe_feature_key⟩ <;>
    simp [link_epic_to_safe_feature, h]

/-- The Story link helper issues exactly one `issue_update` call on the
created Story's key, setting customfield_11501 to the parent Epic's key,
whether or not the call succeeds, and issues no link creation. -/
theorem link_story_calls (jira : Jira) (epic_key story_key : String) (tr : Trace) :
    (link_story_to_epic jira epic_key story_key tr).updateCalls
        = tr.updateCalls ++ [(story_key, "customfield_11501", epic_key)]
      ∧ (link_story_to_epic jira epic_key story_key tr).linkCalls = tr.linkCalls := by
  cases h : jira.issue_update story_key "customfield_11501" epic_key <;>
    simp [link_story_to_epic, h]

/-- The link strategy never touches the creation-call or outcome parts of
the trace. -/
theorem link_issue_frame (jira : Jira) (parent_key created_key : String)
    (create_fields : CreateFields) (tr : Trace) :
    (link_issue jira parent_key created_key create_fields tr).createCalls = tr.createCalls
      ∧ (link_issue jira parent_key created_key create_fields tr).outcomes = tr.outcomes := by
  unfold link_issue
  by_cases hE : create_fields.issuetypeName = "Epic"
  · cases h : jira.create_issue_link ⟨"10502", created_key, parent_key⟩ <;>
      simp [hE, link_epic_to_safe_feature, h]
  · by_cases hS : create_fields.issuetypeName = "Story"
    · cases h : jira.issue_update created_key "customfield_11501" parent_key <;>
        simp [hE, hS, link_story_to_epic, h]
    · simp [hE, hS]

/-! ## Engine step lemmas

Each lemma describes one iteration of the per-parent loop under a fixed
branch of the control flow, for each script variant.
-/

/-- CreateSIT.py loop, duplicate branch: the parent is skipped with a
SkippedDuplicate outcome and the loop continues on the rest with the
mutated template. -/
theorem fetchLoopCreate_skip (jira : Jira) (prefixStr : String) (suffix : Bool)
    (v : ParentIssue) (rest : List ParentIssue) (create_fields cf : CreateFields)
    (tr : Trace)
    (hres : resolveFields create_fields prefixStr v.summary suffix = cf)
    (hscan : issueExistsScan v.issuelinks cf.summary = true) :
    fetchLoopCreate jira prefixStr suffix (v :: rest) create_fields tr
      = fetchLoopCreate jira prefixStr suffix rest cf
          { tr with outcomes := tr.outcomes ++ [SyncOutcome.SkippedDuplicate] } := by
  simp only [fetchLoopCreate, hres, hscan, if_true]

/-- jiraSIT.py loop, duplicate branch. -/
theorem fetchLoopJira_skip (jira : Jira) (prefixStr : String) (suffix : Bool)
    (v : ParentIssue) (rest : List ParentIssue) (create_fields cf : CreateFields)
    (tr : Trace)
    (hres : resolveFields create_fields prefixStr v.summary suffix = cf)
    (hjira : issue_already_exists v.issuelinks cf.summary = true) :
    fetchLoopJira jira prefixStr suffix (v :: rest) create_fields tr
      = fetchLoopJira jira prefixStr suffix rest cf
          { tr with outcomes := tr.outcomes ++ [SyncOutcome.SkippedDuplicate] } := by
  simp only [fetchLoopJira, hres, hjira, if_true]

/-- CreateSIT.py loop, creation-failure branch: the loop returns at once,
with the failed creation call and the FailedCreate outcome recorded and
nothing from the remaining parents. -/
theorem fetchLoopCreate_fail (jira : Jira) (prefixStr : String) (suffix : Bool)
    (v : ParentIssue) (rest : List ParentIssue) (create_fields cf : CreateFields)
    (tr : Trace) (e : String)
    (hres : resolveFields create_fields prefixStr v.summary suffix = cf)
    (hscan : issueExistsScan v.issuelinks cf.summary = false)
    (hcreate : jira.issue_create cf = Except.error e) :
    fetchLoopCreate jira prefixStr suffix (v :: rest) create_fields tr
      = { tr with createCalls := tr.createCalls ++ [cf],
                  outcomes := tr.outcomes ++ [SyncOutcome.FailedCreate e] } := by
  simp only [fetchLoopCreate, hres, hscan, hcreate, Bool.false_eq_true, if_false]

/-- jiraSIT.py loop, creation-failure branch. -/
theorem fetchLoopJira_fail (jira : Jira) (prefixStr : String) (suffix : Bool)
    (v : ParentIssue) (rest : List ParentIssue) (create_fields cf : CreateFields)
    (tr : Trace) (e : String)
    (hres : resolveFields create_fields prefixStr v.summary suffix = cf)
    (hjira : issue_already_exists v.issuelinks cf.summary = false)
    (hcreate : jira.issue_create cf = Except.error e) :
    fetchLoopJira jira prefixStr suffix (v :: rest) create_fields tr
      = { tr with createCalls := tr.createCalls ++ [cf],
                  outcomes := tr.outcomes ++ [SyncOutcome.FailedCreate e] } := by
  simp only [fetchLoopJira, hres, hjira, Bool.false_eq_true, if_false, hcreate]

/-- CreateSIT.py loop, successful-creation branch: the creation call and
the Created outcome are recorded, the link strategy runs, and the loop
continues on the rest with the mutated template. -/
theorem fetchLoopCreate_ok (jira : Jira) (prefixStr : String) (suffix : Bool)
    (v : ParentIssue) (rest : List ParentIssue) (create_fields cf : CreateFields)
    (tr : Trace) (k : String)
    (hres : resolveFields create_fields prefixStr v.summary suffix = cf)
    (hscan : issueExistsScan v.issuelinks cf.summary = false)
    (hcreate : jira.issue_create cf = Except.ok k) :
    fetchLoopCreate jira prefixStr suffix (v :: rest) create_fields tr
      = fetchLoopCreate jira prefixStr suffix rest cf
          (link_issue jira v.key k cf
            { tr with createCalls := tr.createCalls ++ [cf],
                      outcomes := tr.outcomes ++ [SyncOutcome.Created k] }) := by
  simp only [fetchLoopCreate, hres, hscan, Bool.false_eq_true, if_false, hcreate]

/-- jiraSIT.py loop, successful-creation branch. -/
theorem fetchLoopJira_ok (jira : Jira) (prefixStr : String) (suffix : Bool)
    (v : ParentIssue) (rest : List ParentIssue) (create_fields cf : CreateFields)
    (tr : Trace) (k : String)
    (hres : resolveFields create_fields prefixStr v.summary suffix = cf)
    (hjira : issue_already_exists v.issuelinks cf.summary = false)
    (hcreate : jira.issue_create cf = Except.ok k) :
    fetchLoopJira jira prefixStr suffix (v :: rest) create_fields tr
      = fetchLoopJira jira prefixStr suffix rest cf
          (link_issue jira v.key k cf
            { tr with createCalls := tr.createCalls ++ [cf],
                      outcomes := tr.outcomes ++ [SyncOutcome.Created k] }) := by
  simp only [fetchLoopJira, hres, hjira, Bool.false_eq_true, if_false, hcreate]

/-! ## Whole-run creation-call invariants -/

/-- In suffix mode, every creation call the CreateSIT.py loop issues uses
a summary of the form `prefixStr` plus the derived suffix of one of the
processed parents, independent of the template state the iteration
started from. -/
theorem fetchLoopCreate_createCalls_suffix (jira : Jira) (prefixStr : String) :
    ∀ (values : List ParentIssue) (create_fields : CreateFields) (tr : Trace)
      (f : CreateFields),
      f ∈ (fetchLoopCreate jira prefixStr true values create_fields tr).createCalls →
      f ∈ tr.createCalls
        ∨ ∃ p ∈ values, f.summary = prefixStr ++ deriveSuffix p.summary := by
  intro values
  induction values with
  | nil => intro create_fields tr f hf; exact Or.inl (by simpa [fetchLoopCreate] using hf)
  | cons v rest ih =>
    intro create_fields tr f hf
    set cf := resolveFields create_fields prefixStr v.summary true with hcf
    have hsum : cf.summary = prefixStr ++ deriveSuffix v.summary := by
      simp [hcf, resolveFields]
    cases hscan : issueExistsScan v.issuelinks cf.summary with
    | true =>
      rw [fetchLoopCreate_skip jira prefixStr true v rest create_fields cf tr rfl hscan] at hf
      rcases ih cf _ f hf with h | ⟨p, hp, hps⟩
      · exact Or.inl h
      · exact Or.inr ⟨p, List.mem_cons_of_mem v hp, hps⟩
    | false =>
      cases hcreate : jira.issue_create cf with
      | error e =>
        rw [fetchLoopCreate_fail jira prefixStr true v rest create_fields cf tr e rfl
          hscan hcreate] at hf
        rcases List.mem_append.mp hf with h | h
        · exact Or.inl h
        · exact Or.inr ⟨v, List.mem_cons_self v rest, by
            rw [List.mem_singleton.mp h, hsum]⟩
      | ok k =>
        rw [fetchLoopCreate_ok jira prefixStr true v rest create_fields cf tr k rfl
          hscan hcreate] at hf
        rcases ih cf _ f hf with h | ⟨p, hp, hps⟩
        · rw [(link_issue_frame jira v.key k cf _).1] at h
          rcases List.mem_append.mp h with h | h
          · exact Or.inl h
          · exact Or.inr ⟨v, List.mem_cons_self v rest, by
              rw [List.mem_singleton.mp h, hsum]⟩
        · exact Or.inr ⟨p, List.mem_cons_of_mem v hp, hps⟩

/-- In suffix mode, every creation call the jiraSIT.py loop issues uses a
summary of the form `prefixStr` plus the derived suffix of one of the
processed parents. -/
theorem fetchLoopJira_createCalls_suffix (jira : Jira) (prefixStr : String) :
    ∀ (values : List ParentIssue) (create_fields : CreateFields) (tr : Trace)
      (f : CreateFields),
      f ∈ (fetchLoopJira jira prefixStr true values create_fields tr).createCalls →
      f ∈ tr.createCalls
        ∨ ∃ p ∈ values, f.summary = prefixStr ++ deriveSuffix p.summary := by
  intro values
  induction values with
  | nil => intro create_fields tr f hf; exact Or.inl (by simpa [fetchLoopJira] using hf)
  | cons v rest ih =>
    intro create_fields tr f hf
    set cf := resolveFields create_fields prefixStr v.summary true with hcf
    have hsum : cf.summary = prefixStr ++ deriveSuffix v.summary := by
      simp [hcf, resolveFields]
    cases hjira : issue_already_exists v.issuelinks cf.summary with
    | true =>
      rw [fetchLoopJira_skip jira prefixStr true v rest create_fields cf tr rfl hjira] at hf
      rcases ih cf _ f hf with h | ⟨p, hp, hps⟩
      · exact Or.inl h
      · exact Or.inr ⟨p, List.mem_cons_of_mem v hp, hps⟩
    | false =>
      cases hcreate : jira.issue_create cf with
      | error e =>
        rw [fetchLoopJira_fail jira prefixStr true v rest create_fields cf tr e rfl
          hjira hcreate] at hf
        rcases List.mem_append.mp hf with h | h
        · exact Or.inl h
        · exact Or.inr ⟨v, List.mem_cons_self v rest, by
            rw [List.mem_singleton.mp h, hsum]⟩
      | ok k =>
        rw [fetchLoopJira_ok jira prefixStr true v rest create_fields cf tr k rfl
          hjira hcreate] at hf
        rcases ih cf _ f hf with h | ⟨p, hp, hps⟩
        · rw [(link_issue_frame jira v.key k cf _).1] at h
          rcases List.mem_append.mp h with h | h
          · exact Or.inl h
          · exact Or.inr ⟨v, List.mem_cons_self v rest, by
              rw [List.mem_singleton.mp h, hsum]⟩
        · exact Or.inr ⟨p, List.mem_cons_of_mem v hp, hps⟩

/-- With suffix mode off, every creation call the CreateSIT.py loop issues
passes the template it started the iteration with, which is the unmodified
template carried unchanged through every iteration. -/
theorem fetchLoopCreate_createCalls_nosuffix (jira : Jira) (prefixStr : String) :
    ∀ (values : List ParentIssue) (create_fields : CreateFields) (tr : Trace)
      (f : CreateFields),
      f ∈ (fetchLoopCreate jira prefixStr false values create_fields tr).createCalls →
      f ∈ tr.createCalls ∨ f = create_fields := by
  intro values
  induction values with
  | nil => intro create_fields tr f hf; exact Or.inl (by simpa [fetchLoopCreate] using hf)
  | cons v rest ih =>
    intro create_fields tr f hf
    have hcf : resolveFields create_fields prefixStr v.summary false = create_fields := rfl
    cases hscan : issueExistsScan v.issuelinks create_fields.summary with
    | true =>
      rw [fetchLoopCreate_skip jira prefixStr false v rest create_fields create_fields
        tr hcf hscan] at hf
      rcases ih create_fields _ f hf with h | h
      · exact Or.inl h
      · exact Or.inr h
    | false =>
      cases hcreate : jira.issue_create create_fields with
      | error e =>
        rw [fetchLoopCreate_fail jira prefixStr false v rest create_fields create_fields
          tr e hcf hscan hcreate] at hf
        rcases List.mem_append.mp hf with h | h
        · exact Or.inl h
        · exact Or.inr (List.mem_singleton.mp h)
      | ok k =>
        rw [fetchLoopCreate_ok jira prefixStr false v rest create_fields create_fields
          tr k hcf hscan hcreate] at hf
        rcases ih create_fields _ f hf with h | h
        · rw [(link_issue_frame jira v.key k create_fields _).1] at h
          rcases List.mem_append.mp h with h | h
          · exact Or.inl h
          · exact Or.inr (List.mem_singleton.mp h)
        · exact Or.inr h

/-- With suffix mode off, every creation call the jiraSIT.py loop issues
passes the unmodified template. -/
theorem fetchLoopJira_createCalls_nosuffix (jira : Jira) (prefixStr : String) :
    ∀ (values : List ParentIssue) (create_fields : CreateFields) (tr : Trace)
      (f : CreateFields),
      f ∈ (fetchLoopJira jira prefixStr false values create_fields tr).createCalls →
      f ∈ tr.createCalls ∨ f = create_fields := by
  intro values
  induction values with
  | nil => intro create_fields tr f hf; exact Or.inl (by simpa [fetchLoopJira] using hf)
  | cons v rest ih =>
    intro create_fields tr f hf
    have hcf : resolveFields create_fields prefixStr v.summary false = create_fields := rfl
    cases hjira : issue_already_exists v.issuelinks create_fields.summary with
    | true =>
      rw [fetchLoopJira_skip jira prefixStr false v rest create_fields create_fields
        tr hcf hjira] at hf
      rcases ih create_fields _ f hf with h | h
      · exact Or.inl h
      · exact Or.inr h
    | false =>
      cases hcreate : jira.issue_create create_fields with
      | error e =>
        rw [fetchLoopJira_fail jira prefixStr false v rest create_fields create_fields
          tr e hcf hjira hcreate] at hf
        rcases List.mem_append.mp hf with h | h
        · exact Or.inl h
        · exact Or.inr (List.mem_singleton.mp h)
      | ok k =>
        rw [fetchLoopJira_ok jira prefixStr false v rest create_fields create_fields
          tr k hcf hjira hcreate] at hf
        rcases ih create_fields _ f hf with h | h
        · rw [(link_issue_frame jira v.key k create_fields _).1] at h
          rcases List.mem_append.mp h with h | h
          · exact Or.inl h
          · exact Or.inr (List.mem_singleton.mp h)
        · exact Or.inr h

/-- jiraSIT.py's _issue_already_exists in terms of the CreateSIT.py scan:
it is true exactly when the scan is true or the candidate is empty and
some link carries no linked-issue summary at all. -/
theorem issue_already_exists_characterization (links : List Link) (cand : String) :
    issue_already_exists links cand = true
      ↔ (issueExistsScan links cand = true
          ∨ (cand = "" ∧ ∃ l ∈ links, linkedSummary l = none)) := by
  constructor
  · intro h
    rcases (issue_already_exists_iff links cand).mp h with ⟨l, hl, hg⟩
    cases ho : linkedSummary l with
    | some s =>
      rw [ho] at hg
      exact Or.inl ((issueExistsScan_iff links cand).mpr ⟨l, hl, by
        rw [ho]; exact congrArg some (by simpa using hg)⟩)
    | none =>
      rw [ho] at hg
      exact Or.inr ⟨hg.symm, l, hl, ho⟩
  · intro h
    rcases h with h | ⟨hc, l, hl, ho⟩
    · exact issue_already_exists_of_scan links cand h
    · exact (issue_already_exists_iff links cand).mpr ⟨l, hl, by rw [ho, hc]; rfl⟩

/-! ## Witness fixtures: concrete Jira collaborators -/

/-- A Jira client whose calls all succeed, creating issues under the key
NEW-1. -/
def okJira : Jira :=
  ⟨fun _ => Except.ok "NEW-1", fun _ => Except.ok (), fun _ _ _ => Except.ok ()⟩

/-- A Jira client whose creation calls raise. -/
def failCreateJira : Jira :=
  ⟨fun _ => Except.error "boom", fun _ => Except.ok (), fun _ _ _ => Except.ok ()⟩

/-- A Jira client whose creation calls succeed but whose link and update
calls raise. -/
def failLinkJira : Jira :=
  ⟨fun _ => Except.ok "NEW-1", fun _ => Except.error "linkboom",
   fun _ _ _ => Except.error "updboom"⟩

/-! ## Claims -/

/-- Claim C1, counterexample: in suffix mode, with parent summary
"ST: SIT - Feature A (legacy)" and template base "SIT: ", the resolved
child summary is NOT "SIT: Feature A " as the claim states. -/
theorem C1_counterexample :
    (resolveFields ⟨"SIT: ", "Epic", none, []⟩ "SIT: "
        "ST: SIT - Feature A (legacy)" true).summary
      ≠ "SIT: Feature A " := by decide

/-- Claim C1 (amended): in suffix mode, for the parent summary
"ST: SIT - Feature A (legacy)" and template base summary "SIT: ", the
resolved child summary equals "SIT:  Feature A " with two spaces after
the colon: the bracket substitution leaves "ST: SIT - Feature A " (the
space before "(legacy)" survives), the marker substitution then leaves
" Feature A " (the space after the marker survives), and the base ends
in a space of its own, so the concatenation has two. -/
theorem C1_resolved_summary :
    stripBrackets "ST: SIT - Feature A (legacy)" = "ST: SIT - Feature A "
    ∧ removeMarker "ST: SIT - Feature A " = " Feature A "
    ∧ (resolveFields ⟨"SIT: ", "Epic", none, []⟩ "SIT: "
          "ST: SIT - Feature A (legacy)" true).summary
        = "SIT:  Feature A " := by decide

/-- Claim C3, counterexample: jiraSIT.py's _issue_already_exists returns
true for a parent whose single link carries no linked-issue summary at
all when the candidate summary is the empty string, although no link
carries a summary equal to the candidate. -/
theorem C3_counterexample :
    issue_already_exists [⟨none, none⟩] "" = true
      ∧ linkedSummary ⟨none, none⟩ = none := by decide

/-- Claim C3 (amended): the CreateSIT.py scan returns true exactly when
some link carries a linked-issue summary equal (case-sensitive, no
trimming) to the candidate; jiraSIT.py's _issue_already_exists compares
the carried summary defaulted to the empty string, so a link carrying no
summary matches an empty candidate.  Both return false on an empty link
list, scan in order, and return true at the first matching link whatever
the later links hold. -/
theorem C3_duplicate_detector_characterization
    (links rest : List Link) (link : Link) (cand : String) :
    (issueExistsScan links cand = true ↔ ∃ l ∈ links, linkedSummary l = some cand)
    ∧ (issue_already_exists links cand = true
        ↔ ∃ l ∈ links, (linkedSummary l).getD "" = cand)
    ∧ issueExistsScan [] cand = false
    ∧ issue_already_exists [] cand = false
    ∧ (linkedSummary link = some cand → issueExistsScan (link :: rest) cand = true)
    ∧ ((linkedSummary link).getD "" = cand → issue_already_exists (link :: rest) cand = true) :=
  ⟨issueExistsScan_iff links cand, issue_already_exists_iff links cand, rfl, rfl,
   fun h => by simp [issueExistsScan_cons, h],
   fun h => by simp [issue_already_exists_cons, h]⟩

/-- Claim C3, witness: a first link carrying summary "A" makes both
detectors answer true for candidate "A". -/
theorem C3_witness :
    issueExistsScan [⟨some "A", none⟩] "A" = true
      ∧ issue_already_exists [⟨some "A", none⟩] "A" = true :=
  ⟨(C3_duplicate_detector_characterization [] [] ⟨some "A", none⟩ "A").2.2.2.2.1 (by decide),
   (C3_duplicate_detector_characterization [] [] ⟨some "A", none⟩ "A").2.2.2.2.2 (by decide)⟩

/-- Claim C10, counterexample: on a link record with neither an
inwardIssue nor an outwardIssue entry and an empty candidate summary, the
CreateSIT.py inline scan answers false while jiraSIT.py's
_issue_already_exists answers true, so the two variants are not
equivalent. -/
theorem C10_counterexample :
    issueExistsScan [⟨none, none⟩] "" = false
      ∧ issue_already_exists [⟨none, none⟩] "" = true := by decide

/-- Claim C10 (amended): the two duplicate detectors agree except exactly
when the candidate summary is empty and some link carries neither entry:
jiraSIT.py's _issue_already_exists is true precisely when the
CreateSIT.py scan is true or the candidate is empty and some link carries
no linked-issue summary; in particular the two agree whenever the
candidate is nonempty, and whenever every link carries an entry. -/
theorem C10_detector_equivalence_characterized (links : List Link) (cand : String) :
    (issue_already_exists links cand = true
      ↔ (issueExistsScan links cand = true
          ∨ (cand = "" ∧ ∃ l ∈ links, linkedSummary l = none)))
    ∧ (cand ≠ "" → issue_already_exists links cand = issueExistsScan links cand)
    ∧ ((∀ l ∈ links, linkedSummary l ≠ none) →
        issue_already_exists links cand = issueExistsScan links cand) := by
  refine ⟨issue_already_exists_characterization links cand, ?_, ?_⟩
  · intro hne
    cases hs : issueExistsScan links cand with
    | true => exact issue_already_exists_of_scan links cand hs
    | false =>
      cases hj : issue_already_exists links cand with
      | false => rfl
      | true =>
        rcases (issue_already_exists_characterization links cand).mp hj with h | ⟨hc, _⟩
        · rw [hs] at h; cases h
        · exact absurd hc hne
  · intro hall
    cases hs : issueExistsScan links cand with
    | true => exact issue_already_exists_of_scan links cand hs
    | false =>
      cases hj : issue_already_exists links cand with
      | false => rfl
      | true =>
        rcases (issue_already_exists_characterization links cand).mp hj with h | ⟨_, l, hl, ho⟩
        · rw [hs] at h; cases h
        · exact absurd ho (hall l hl)

/-- Claim C10, witness: for the nonempty candidate "B" the two detectors
agree on a parent with one inward link. -/
theorem C10_witness :
    issue_already_exists [⟨some "A", none⟩] "B"
      = issueExistsScan [⟨some "A", none⟩] "B" :=
  (C10_detector_equivalence_characterized [⟨some "A", none⟩] "B").2.1 (by decide)

/-- Claim C2: in both script variants, when the duplicate check passes
and the creation call for a parent raises, the loop returns at once, so
the whole remaining batch is untouched — the result does not depend on
the remaining parents at all, hence no template resolution, duplicate
check, creation, or link operation happens for any of them — and the
failing parent's FailedCreate outcome is the last thing recorded. -/
theorem C2_create_failure_aborts_batch
    (jira : Jira) (prefixStr : String) (suffix : Bool) (v : ParentIssue)
    (rest : List ParentIssue) (create_fields cf : CreateFields) (tr : Trace) (e : String)
    (hres : resolveFields create_fields prefixStr v.summary suffix = cf)
    (hscan : issueExistsScan v.issuelinks cf.summary = false)
    (hjira : issue_already_exists v.issuelinks cf.summary = false)
    (hcreate : jira.issue_create cf = Except.error e) :
    fetchLoopCreate jira prefixStr suffix (v :: rest) create_fields tr
        = { tr with createCalls := tr.createCalls ++ [cf],
                    outcomes := tr.outcomes ++ [SyncOutcome.FailedCreate e] }
      ∧ fetchLoopJira jira prefixStr suffix (v :: rest) create_fields tr
        = { tr with createCalls := tr.createCalls ++ [cf],
                    outcomes := tr.outcomes ++ [SyncOutcome.FailedCreate e] } :=
  ⟨fetchLoopCreate_fail jira prefixStr suffix v rest create_fields cf tr e
     hres hscan hcreate,
   fetchLoopJira_fail jira prefixStr suffix v rest create_fields cf tr e
     hres hjira hcreate⟩

/-- Claim C2, witness: with a client whose creation raises "boom", a
two-parent batch stops at the first parent; the second parent F-2
contributes nothing to the trace in either variant. -/
theorem C2_witness :
    fetchLoopCreate failCreateJira "S" false
        [⟨"F-1", "P1", []⟩, ⟨"F-2", "P2", []⟩] ⟨"S", "Epic", none, []⟩ Trace.empty
        = { Trace.empty with createCalls := [⟨"S", "Epic", none, []⟩],
                             outcomes := [SyncOutcome.FailedCreate "boom"] }
      ∧ fetchLoopJira failCreateJira "S" false
          [⟨"F-1", "P1", []⟩, ⟨"F-2", "P2", []⟩] ⟨"S", "Epic", none, []⟩ Trace.empty
        = { Trace.empty with createCalls := [⟨"S", "Epic", none, []⟩],
                             outcomes := [SyncOutcome.FailedCreate "boom"] } :=
  C2_create_failure_aborts_batch failCreateJira "S" false ⟨"F-1", "P1", []⟩
    [⟨"F-2", "P2", []⟩] ⟨"S", "Epic", none, []⟩ ⟨"S", "Epic", none, []⟩ Trace.empty "boom"
    rfl (by decide) (by decide) rfl

/-- Claim C4: in both script variants, a parent with an existing link
whose carried summary equals the resolved child summary is skipped: the
iteration records exactly a SkippedDuplicate outcome — no creation call,
no link call, no field update — and the loop continues with the next
parent. -/
theorem C4_duplicate_skips_creation
    (jira : Jira) (prefixStr : String) (suffix : Bool) (v : ParentIssue)
    (rest : List ParentIssue) (create_fields cf : CreateFields) (tr : Trace)
    (hres : resolveFields create_fields prefixStr v.summary suffix = cf)
    (hdup : ∃ l ∈ v.issuelinks, linkedSummary l = some cf.summary) :
    fetchLoopCreate jira prefixStr suffix (v :: rest) create_fields tr
        = fetchLoopCreate jira prefixStr suffix rest cf
            { tr with outcomes := tr.outcomes ++ [SyncOutcome.SkippedDuplicate] }
      ∧ fetchLoopJira jira prefixStr suffix (v :: rest) create_fields tr
        = fetchLoopJira jira prefixStr suffix rest cf
            { tr with outcomes := tr.outcomes ++ [SyncOutcome.SkippedDuplicate] } := by
  have hscan : issueExistsScan v.issuelinks cf.summary = true :=
    (issueExistsScan_iff v.issuelinks cf.summary).mpr hdup
  exact ⟨fetchLoopCreate_skip jira prefixStr suffix v rest create_fields cf tr hres hscan,
         fetchLoopJira_skip jira prefixStr suffix v rest create_fields cf tr hres
           (issue_already_exists_of_scan v.issuelinks cf.summary hscan)⟩

/-- Claim C4, witness: a parent already linked to an issue summarised "S"
is skipped with a SkippedDuplicate outcome in both variants and the
all-succeeding client is never asked to create anything for it. -/
theorem C4_witness :
    fetchLoopCreate okJira "S" false [⟨"F-1", "P1", [⟨some "S", none⟩]⟩]
        ⟨"S", "Epic", none, []⟩ Trace.empty
        = fetchLoopCreate okJira "S" false [] ⟨"S", "Epic", none, []⟩
            { Trace.empty with outcomes := [SyncOutcome.SkippedDuplicate] }
      ∧ fetchLoopJira okJira "S" false [⟨"F-1", "P1", [⟨some "S", none⟩]⟩]
          ⟨"S", "Epic", none, []⟩ Trace.empty
        = fetchLoopJira okJira "S" false [] ⟨"S", "Epic", none, []⟩
            { Trace.empty with outcomes := [SyncOutcome.SkippedDuplicate] } :=
  C4_duplicate_skips_creation okJira "S" false ⟨"F-1", "P1", [⟨some "S", none⟩]⟩ []
    ⟨"S", "Epic", none, []⟩ ⟨"S", "Epic", none, []⟩ Trace.empty rfl (by decide)

/-- Claim C5: in both script variants, when the child creation for a
parent succeeds with template issue type "Epic", the iteration performs
exactly the Epic link step, and that step issues exactly one
create_issue_link call with the fixed link type id "10502", the newly
created Epic's key as the inward party and the parent Feature's key as
the outward party, and no field update. -/
theorem C5_epic_linking
    (jira : Jira) (prefixStr : String) (suffix : Bool) (v : ParentIssue)
    (rest : List ParentIssue) (create_fields cf : CreateFields) (tr : Trace) (k : String)
    (hres : resolveFields create_fields prefixStr v.summary suffix = cf)
    (hepic : cf.issuetypeName = "Epic")
    (hscan : issueExistsScan v.issuelinks cf.summary = false)
    (hjira : issue_already_exists v.issuelinks cf.summary = false)
    (hcreate : jira.issue_create cf = Except.ok k) :
    fetchLoopCreate jira prefixStr suffix (v :: rest) create_fields tr
        = fetchLoopCreate jira prefixStr suffix rest cf
            (link_epic_to_safe_feature jira v.key k
              { tr with createCalls := tr.createCalls ++ [cf],
                        outcomes := tr.outcomes ++ [SyncOutcome.Created k] })
      ∧ fetchLoopJira jira prefixStr suffix (v :: rest) create_fields tr
        = fetchLoopJira jira prefixStr suffix rest cf
            (link_epic_to_safe_feature jira v.key k
              { tr with createCalls := tr.createCalls ++ [cf],
                        outcomes := tr.outcomes ++ [SyncOutcome.Created k] })
      ∧ (∀ t : Trace,
          (link_epic_to_safe_feature jira v.key k t).linkCalls
              = t.linkCalls ++ [⟨"10502", k, v.key⟩]
            ∧ (link_epic_to_safe_feature jira v.key k t).updateCalls = t.updateCalls) := by
  have hli : link_issue jira v.key k cf = link_epic_to_safe_feature jira v.key k := by
    funext t; simp [link_issue, hepic]
  refine ⟨?_, ?_, fun t => link_epic_calls jira v.key k t⟩
  · rw [fetchLoopCreate_ok jira prefixStr suffix v rest create_fields cf tr k
      hres hscan hcreate, hli]
  · rw [fetchLoopJira_ok jira prefixStr suffix v rest create_fields cf tr k
      hres hjira hcreate, hli]

/-- Claim C5, witness: an Epic template and an all-succeeding client
produce the Epic link step for parent F-1, and on any trace that step
records exactly the payload with type id "10502", NEW-1 inward and F-1
outward, touching no update calls. -/
theorem C5_witness :
    fetchLoopCreate okJira "S" false [⟨"F-1", "P1", []⟩] ⟨"S", "Epic", none, []⟩
        Trace.empty
        = fetchLoopCreate okJira "S" false [] ⟨"S", "Epic", none, []⟩
            (link_epic_to_safe_feature okJira "F-1" "NEW-1"
              { Trace.empty with createCalls := [⟨"S", "Epic", none, []⟩],
                                 outcomes := [SyncOutcome.Created "NEW-1"] })
      ∧ (link_epic_to_safe_feature okJira "F-1" "NEW-1" Trace.empty).linkCalls
          = [⟨"10502", "NEW-1", "F-1"⟩]
      ∧ (link_epic_to_safe_feature okJira "F-1" "NEW-1" Trace.empty).updateCalls = [] :=
  ⟨(C5_epic_linking okJira "S" false ⟨"F-1", "P1", []⟩ [] ⟨"S", "Epic", none, []⟩
      ⟨"S", "Epic", none, []⟩ Trace.empty "NEW-1" rfl rfl (by decide) (by decide) rfl).1,
   ((C5_epic_linking okJira "S" false ⟨"F-1", "P1", []⟩ [] ⟨"S", "Epic", none, []⟩
      ⟨"S", "Epic", none, []⟩ Trace.empty "NEW-1" rfl rfl (by decide) (by decide)
      rfl).2.2 Trace.empty).1,
   ((C5_epic_linking okJira "S" false ⟨"F-1", "P1", []⟩ [] ⟨"S", "Epic", none, []⟩
      ⟨"S", "Epic", none, []⟩ Trace.empty "NEW-1" rfl rfl (by decide) (by decide)
      rfl).2.2 Trace.empty).2⟩

/-- Claim C6: in both script variants, when the child creation for a
parent succeeds with template issue type "Story", the iteration performs
exactly the Story link step, and that step issues exactly one
issue_update call on the created Story's key setting customfield_11501
to the parent Epic's key, and no create_issue_link call. -/
theorem C6_story_linking
    (jira : Jira) (prefixStr : String) (suffix : Bool) (v : ParentIssue)
    (rest : List ParentIssue) (create_fields cf : CreateFields) (tr : Trace) (k : String)
    (hres : resolveFields create_fields prefixStr v.summary suffix = cf)
    (hstory : cf.issuetypeName = "Story")
    (hscan : issueExistsScan v.issuelinks cf.summary = false)
    (hjira : issue_already_exists v.issuelinks cf.summary = false)
    (hcreate : jira.issue_create cf = Except.ok k) :
    fetchLoopCreate jira prefixStr suffix (v :: rest) create_fields tr
        = fetchLoopCreate jira prefixStr suffix rest cf
            (link_story_to_epic jira v.key k
              { tr with createCalls := tr.createCalls ++ [cf],
                        outcomes := tr.outcomes ++ [SyncOutcome.Created k] })
      ∧ fetchLoopJira jira prefixStr suffix (v :: rest) create_fields tr
        = fetchLoopJira jira prefixStr suffix rest cf
            (link_story_to_epic jira v.key k
              { tr with createCalls := tr.createCalls ++ [cf],
                        outcomes := tr.outcomes ++ [SyncOutcome.Created k] })
      ∧ (∀ t : Trace,
          (link_story_to_epic jira v.key k t).updateCalls
              = t.updateCalls ++ [(k, "customfield_11501", v.key)]
            ∧ (link_story_to_epic jira v.key k t).linkCalls = t.linkCalls) := by
  have hli : link_issue jira v.key k cf = link_story_to_epic jira v.key k := by
    funext t; simp [link_issue, hstory]
  refine ⟨?_, ?_, fun t => link_story_calls jira v.key k t⟩
  · rw [fetchLoopCreate_ok jira prefixStr suffix v rest create_fields cf tr k
      hres hscan hcreate, hli]
  · rw [fetchLoopJira_ok jira prefixStr suffix v rest create_fields cf tr k
      hres hjira hcreate, hli]

/-- Claim C6, witness: a Story template and an all-succeeding client
produce the Story link step for parent E-1, and on any trace that step
records exactly one field update on NEW-1 setting customfield_11501 to
E-1, and no link-create call. -/
theorem C6_witness :
    fetchLoopCreate okJira "S" false [⟨"E-1", "P1", []⟩] ⟨"S", "Story", none, []⟩
        Trace.empty
        = fetchLoopCreate okJira "S" false [] ⟨"S", "Story", none, []⟩
            (link_story_to_epic okJira "E-1" "NEW-1"
              { Trace.empty with createCalls := [⟨"S", "Story", none, []⟩],
                                 outcomes := [SyncOutcome.Created "NEW-1"] })
      ∧ (link_story_to_epic okJira "E-1" "NEW-1" Trace.empty).updateCalls
          = [("NEW-1", "customfield_11501", "E-1")]
      ∧ (link_story_to_epic okJira "E-1" "NEW-1" Trace.empty).linkCalls = [] :=
  ⟨(C6_story_linking okJira "S" false ⟨"E-1", "P1", []⟩ [] ⟨"S", "Story", none, []⟩
      ⟨"S", "Story", none, []⟩ Trace.empty "NEW-1" rfl rfl (by decide) (by decide) rfl).1,
   ((C6_story_linking okJira "S" false ⟨"E-1", "P1", []⟩ [] ⟨"S", "Story", none, []⟩
      ⟨"S", "Story", none, []⟩ Trace.empty "NEW-1" rfl rfl (by decide) (by decide)
      rfl).2.2 Trace.empty).1,
   ((C6_story_linking okJira "S" false ⟨"E-1", "P1", []⟩ [] ⟨"S", "Story", none, []⟩
      ⟨"S", "Story", none, []⟩ Trace.empty "NEW-1" rfl rfl (by decide) (by decide)
      rfl).2.2 Trace.empty).2⟩

/-- Claim C7: in both script variants, once a parent's child creation has
succeeded, a failing link step (create_issue_link for an Epic,
issue_update for a Story) is caught: the raised message is recorded in
linkFailures, the Created outcome and the creation call stay in the trace
untouched (the model has no deletion operation at all, so the child is
never rolled back), and the loop continues with the remaining parents. -/
theorem C7_link_failure_non_fatal
    (jira : Jira) (prefixStr : String) (suffix : Bool) (v : ParentIssue)
    (rest : List ParentIssue) (create_fields cf : CreateFields) (tr : Trace)
    (k e : String)
    (hres : resolveFields create_fields prefixStr v.summary suffix = cf)
    (hscan : issueExistsScan v.issuelinks cf.summary = false)
    (hjira : issue_already_exists v.issuelinks cf.summary = false)
    (hcreate : jira.issue_create cf = Except.ok k) :
    (cf.issuetypeName = "Epic" →
      jira.create_issue_link ⟨"10502", k, v.key⟩ = Except.error e →
      fetchLoopCreate jira prefixStr suffix (v :: rest) create_fields tr
          = fetchLoopCreate jira prefixStr suffix rest cf
              { tr with createCalls := tr.createCalls ++ [cf],
                        outcomes := tr.outcomes ++ [SyncOutcome.Created k],
                        linkCalls := tr.linkCalls ++ [⟨"10502", k, v.key⟩],
                        linkFailures := tr.linkFailures ++ [e] }
        ∧ fetchLoopJira jira prefixStr suffix (v :: rest) create_fields tr
          = fetchLoopJira jira prefixStr suffix rest cf
              { tr with createCalls := tr.createCalls ++ [cf],
                        outcomes := tr.outcomes ++ [SyncOutcome.Created k],
                        linkCalls := tr.linkCalls ++ [⟨"10502", k, v.key⟩],
                        linkFailures := tr.linkFailures ++ [e] })
    ∧ (cf.issuetypeName = "Story" →
        jira.issue_update k "customfield_11501" v.key = Except.error e →
        fetchLoopCreate jira prefixStr suffix (v :: rest) create_fields tr
            = fetchLoopCreate jira prefixStr suffix rest cf
                { tr with createCalls := tr.createCalls ++ [cf],
                          outcomes := tr.outcomes ++ [SyncOutcome.Created k],
                          updateCalls := tr.updateCalls
                            ++ [(k, "customfield_11501", v.key)],
                          linkFailures := tr.linkFailures ++ [e] }
          ∧ fetchLoopJira jira prefixStr suffix (v :: rest) create_fields tr
            = fetchLoopJira jira prefixStr suffix rest cf
                { tr with createCalls := tr.createCalls ++ [cf],
                          outcomes := tr.outcomes ++ [SyncOutcome.Created k],
                          updateCalls := tr.updateCalls
                            ++ [(k, "customfield_11501", v.key)],
                          linkFailures := tr.linkFailures ++ [e] }) := by
  constructor
  · intro hepic hlink
    have htr : link_issue jira v.key k cf
        { tr with createCalls := tr.createCalls ++ [cf],
                  outcomes := tr.outcomes ++ [SyncOutcome.Created k] }
        = { tr with createCalls := tr.createCalls ++ [cf],
                    outcomes := tr.outcomes ++ [SyncOutcome.Created k],
                    linkCalls := tr.linkCalls ++ [⟨"10502", k, v.key⟩],
                    linkFailures := tr.linkFailures ++ [e] } := by
      simp [link_issue, hepic, link_epic_to_safe_feature, hlink]
    constructor
    · rw [fetchLoopCreate_ok jira prefixStr suffix v rest create_fields cf tr k
        hres hscan hcreate, htr]
    · rw [fetchLoopJira_ok jira prefixStr suffix v rest create_fields cf tr k
        hres hjira hcreate, htr]
  · intro hstory hupd
    have htr : link_issue jira v.key k cf
        { tr with createCalls := tr.createCalls ++ [cf],
                  outcomes := tr.outcomes ++ [SyncOutcome.Created k] }
        = { tr with createCalls := tr.createCalls ++ [cf],
                    outcomes := tr.outcomes ++ [SyncOutcome.Created k],
                    updateCalls := tr.updateCalls ++ [(k, "customfield_11501", v.key)],
                    linkFailures := tr.linkFailures ++ [e] } := by
      simp [link_issue, hstory, link_story_to_epic, hupd]
    constructor
    · rw [fetchLoopCreate_ok jira prefixStr suffix v rest create_fields cf tr k
        hres hscan hcreate, htr]
    · rw [fetchLoopJira_ok jira prefixStr suffix v rest create_fields cf tr k
        hres hjira hcreate, htr]

/-- Claim C7, witness: with a client whose link and update calls raise,
both an Epic run and a Story run over a two-parent batch keep the Created
outcome, record the failure, and go on to process the second parent. -/
theorem C7_witness :
    (fetchLoopCreate failLinkJira "S" false [⟨"F-1", "P1", []⟩, ⟨"F-2", "P2", []⟩]
        ⟨"S", "Epic", none, []⟩ Trace.empty
        = fetchLoopCreate failLinkJira "S" false [⟨"F-2", "P2", []⟩]
            ⟨"S", "Epic", none, []⟩
            { Trace.empty with createCalls := [⟨"S", "Epic", none, []⟩],
                               outcomes := [SyncOutcome.Created "NEW-1"],
                               linkCalls := [⟨"10502", "NEW-1", "F-1"⟩],
                               linkFailures := ["linkboom"] }
      ∧ fetchLoopJira failLinkJira "S" false [⟨"F-1", "P1", []⟩, ⟨"F-2", "P2", []⟩]
          ⟨"S", "Epic", none, []⟩ Trace.empty
        = fetchLoopJira failLinkJira "S" false [⟨"F-2", "P2", []⟩]
            ⟨"S", "Epic", none, []⟩
            { Trace.empty with createCalls := [⟨"S", "Epic", none, []⟩],
                               outcomes := [SyncOutcome.Created "NEW-1"],
                               linkCalls := [⟨"10502", "NEW-1", "F-1"⟩],
                               linkFailures := ["linkboom"] })
    ∧ (fetchLoopCreate failLinkJira "S" false [⟨"E-1", "P1", []⟩, ⟨"E-2", "P2", []⟩]
          ⟨"S", "Story", none, []⟩ Trace.empty
        = fetchLoopCreate failLinkJira "S" false [⟨"E-2", "P2", []⟩]
            ⟨"S", "Story", none, []⟩
            { Trace.empty with createCalls := [⟨"S", "Story", none, []⟩],
                               outcomes := [SyncOutcome.Created "NEW-1"],
                               updateCalls := [("NEW-1", "customfield_11501", "E-1")],
                               linkFailures := ["updboom"] }
      ∧ fetchLoopJira failLinkJira "S" false [⟨"E-1", "P1", []⟩, ⟨"E-2", "P2", []⟩]
          ⟨"S", "Story", none, []⟩ Trace.empty
        = fetchLoopJira failLinkJira "S" false [⟨"E-2", "P2", []⟩]
            ⟨"S", "Story", none, []⟩
            { Trace.empty with createCalls := [⟨"S", "Story", none, []⟩],
                               outcomes := [SyncOutcome.Created "NEW-1"],
                               updateCalls := [("NEW-1", "customfield_11501", "E-1")],
                               linkFailures := ["updboom"] }) :=
  ⟨(C7_link_failure_non_fatal failLinkJira "S" false ⟨"F-1", "P1", []⟩
      [⟨"F-2", "P2", []⟩] ⟨"S", "Epic", none, []⟩ ⟨"S", "Epic", none, []⟩ Trace.empty
      "NEW-1" "linkboom" rfl (by decide) (by decide) rfl).1 rfl rfl,
   (C7_link_failure_non_fatal failLinkJira "S" false ⟨"E-1", "P1", []⟩
      [⟨"E-2", "P2", []⟩] ⟨"S", "Story", none, []⟩ ⟨"S", "Story", none, []⟩ Trace.empty
      "NEW-1" "updboom" rfl (by decide) (by decide) rfl).2 rfl rfl⟩

/-- Claim C8: in suffix mode the resolved summary of an iteration is the
loop-level base `prefixStr` plus the current parent's derived suffix,
whatever template state the iteration inherited — so the in-place
mutation of the previous iteration never leaks into the summary — and at
run level, where _fetch_SAFe captures the base from the template's
original summary once before the loop, every creation call of either
variant carries the original template summary plus the derived suffix of
one of the fetched parents. -/
theorem C8_suffix_base_captured_once
    (jira : Jira) (values : List ParentIssue) (create_fields cfAny : CreateFields)
    (pfx s : String) :
    (resolveFields cfAny pfx s true).summary = pfx ++ deriveSuffix s
    ∧ (∀ f ∈ (fetch_SAFe_create jira values create_fields true).createCalls,
        ∃ p ∈ values, f.summary = create_fields.summary ++ deriveSuffix p.summary)
    ∧ (∀ f ∈ (fetch_SAFe_jira jira values create_fields true).createCalls,
        ∃ p ∈ values, f.summary = create_fields.summary ++ deriveSuffix p.summary) := by
  refine ⟨by simp [resolveFields], ?_, ?_⟩
  · intro f hf
    rcases fetchLoopCreate_createCalls_suffix jira create_fields.summary values
      create_fields Trace.empty f hf with h | h
    · exact absurd h (by simp [Trace.empty])
    · exact h
  · intro f hf
    rcases fetchLoopJira_createCalls_suffix jira create_fields.summary values
      create_fields Trace.empty f hf with h | h
    · exact absurd h (by simp [Trace.empty])
    · exact h

/-- Claim C8, witness: a two-parent suffix-mode run issues a second
creation call whose summary is the original base "SIT: " plus the second
parent's suffix, not a compound of the first parent's mutated summary. -/
theorem C8_witness :
    (⟨"SIT:  Feature B", "Epic", some "SIT:  Feature B", []⟩ : CreateFields)
        ∈ (fetch_SAFe_create okJira
            [⟨"F-1", "ST: SIT - Feature A (legacy)", []⟩, ⟨"F-2", "ST: SIT - Feature B", []⟩]
            ⟨"SIT: ", "Epic", none, []⟩ true).createCalls
    ∧ ∃ p ∈ [(⟨"F-1", "ST: SIT - Feature A (legacy)", []⟩ : ParentIssue),
             ⟨"F-2", "ST: SIT - Feature B", []⟩],
        (⟨"SIT:  Feature B", "Epic", some "SIT:  Feature B", []⟩ : CreateFields).summary
          = (⟨"SIT: ", "Epic", none, []⟩ : CreateFields).summary ++ deriveSuffix p.summary :=
  ⟨by decide,
   (C8_suffix_base_captured_once okJira
      [⟨"F-1", "ST: SIT - Feature A (legacy)", []⟩, ⟨"F-2", "ST: SIT - Feature B", []⟩]
      ⟨"SIT: ", "Epic", none, []⟩ ⟨"SIT: ", "Epic", none, []⟩ "SIT: " "x").2.1
    ⟨"SIT:  Feature B", "Epic", some "SIT:  Feature B", []⟩ (by decide)⟩

/-- Claim C9: with suffix mode off, template resolution is the identity —
every field of the template, summary and Epic Name field included, keeps
its loaded value — and every creation call of either variant passes
exactly the loaded template. -/
theorem C9_no_suffix_template_unchanged
    (jira : Jira) (values : List ParentIssue) (create_fields cfAny : CreateFields)
    (pfx s : String) :
    resolveFields cfAny pfx s false = cfAny
    ∧ (∀ f ∈ (fetch_SAFe_create jira values create_fields false).createCalls,
        f = create_fields)
    ∧ (∀ f ∈ (fetch_SAFe_jira jira values create_fields false).createCalls,
        f = create_fields) := by
  refine ⟨rfl, ?_, ?_⟩
  · intro f hf
    rcases fetchLoopCreate_createCalls_nosuffix jira create_fields.summary values
      create_fields Trace.empty f hf with h | h
    · exact absurd h (by simp [Trace.empty])
    · exact h
  · intro f hf
    rcases fetchLoopJira_createCalls_nosuffix jira create_fields.summary values
      create_fields Trace.empty f hf with h | h
    · exact absurd h (by simp [Trace.empty])
    · exact h

/-- Claim C9, witness: a two-parent run without suffix mode passes the
loaded template verbatim to the creation call. -/
theorem C9_witness :
    (⟨"S", "Epic", some "N", [("labels", "x")]⟩ : CreateFields)
        ∈ (fetch_SAFe_create okJira [⟨"F-1", "P1", []⟩, ⟨"F-2", "P2", []⟩]
            ⟨"S", "Epic", some "N", [("labels", "x")]⟩ false).createCalls
    ∧ (⟨"S", "Epic", some "N", [("labels", "x")]⟩ : CreateFields)
        = ⟨"S", "Epic", some "N", [("labels", "x")]⟩ :=
  ⟨by decide,
   (C9_no_suffix_template_unchanged okJira [⟨"F-1", "P1", []⟩, ⟨"F-2", "P2", []⟩]
      ⟨"S", "Epic", some "N", [("labels", "x")]⟩
      ⟨"S", "Epic", some "N", [("labels", "x")]⟩ "p" "q").2.1
    ⟨"S", "Epic", some "N", [("labels", "x")]⟩ (by decide)⟩

end CreateSIT
